import Mathlib

/-
Verification of the auto-hide dock container logic of the
Qt Advanced Docking System (file src/AutoHideDockContainer.cpp).

The widget-level state of CAutoHideDockContainer and its pimpl struct
AutoHideDockContainerPrivate is embedded as a Lean structure; the member
functions become pure state transformers.  Geometry uses the Qt integer
rectangle conventions: a QRect stores x, y, width and height, and its
right column is x + width - 1, its bottom row y + height - 1.  Inputs
that the code reads from the surrounding toolkit (the content rectangle
of the parent dock container, the orientation of the resize handle, the
previous dock area of a dock widget, the restoring flag of the dock
manager) are passed as explicit parameters.
-/

set_option autoImplicit false

namespace ads

/-- The SideBarLocation enum of the docking system. -/
inductive SideBarLocation where
  | SideBarTop
  | SideBarLeft
  | SideBarRight
  | SideBarBottom
  | SideBarNone
deriving DecidableEq

/-- The four values of Qt.Edge used by the resize handle. -/
inductive QtEdge where
  | TopEdge
  | LeftEdge
  | RightEdge
  | BottomEdge
deriving DecidableEq

/-- QSize: a width and a height. -/
structure QSize where
  width : Int
  height : Int
deriving DecidableEq

/-- Componentwise addition of sizes, Qt operator + on QSize. -/
def QSize.add (a b : QSize) : QSize :=
  ⟨a.width + b.width, a.height + b.height⟩

/-- QPoint: integer coordinates. -/
structure QPoint where
  x : Int
  y : Int
deriving DecidableEq

/-- QRect: position and extent, Qt integer rectangle. -/
structure QRect where
  x : Int
  y : Int
  w : Int
  h : Int
deriving DecidableEq

/-- QRect.topLeft. -/
def QRect.topLeft (r : QRect) : QPoint := ⟨r.x, r.y⟩

/-- QRect.topRight: the right column is x + w - 1. -/
def QRect.topRight (r : QRect) : QPoint := ⟨r.x + r.w - 1, r.y⟩

/-- QRect.bottomLeft: the bottom row is y + h - 1. -/
def QRect.bottomLeft (r : QRect) : QPoint := ⟨r.x, r.y + r.h - 1⟩

/-- QRect.contains for a point, Qt semantics on a normal rectangle:
left ≤ px ≤ right and top ≤ py ≤ bottom. -/
def QRect.containsPoint (r : QRect) (p : QPoint) : Bool :=
  decide (r.x ≤ p.x) && decide (p.x ≤ r.x + r.w - 1) &&
  decide (r.y ≤ p.y) && decide (p.y ≤ r.y + r.h - 1)

/-- QWidget.mapFromGlobal for a widget whose top-left corner is at the
given global origin. -/
def mapFromGlobal (origin globalPos : QPoint) : QPoint :=
  ⟨globalPos.x - origin.x, globalPos.y - origin.y⟩

/-- An item of the box layout of the container: either the internal dock
area widget or the resize handle. -/
inductive LayoutItem where
  | dockAreaItem
  | resizeHandleItem
deriving DecidableEq

/-- QBoxLayout.insertWidget: inserts at the given index. -/
def layoutInsertWidget (idx : Nat) (item : LayoutItem)
    (items : List LayoutItem) : List LayoutItem :=
  items.take idx ++ [item] ++ items.drop idx

/-- static const int ResizeMargin = 30. -/
def ResizeMargin : Int := 30

/-- static bool isHorizontalArea(SideBarLocation Area): top and bottom
are horizontal, left and right are not, the default branch returns true. -/
def isHorizontalArea : SideBarLocation → Bool
  | SideBarLocation.SideBarTop => true
  | SideBarLocation.SideBarBottom => true
  | SideBarLocation.SideBarLeft => false
  | SideBarLocation.SideBarRight => false
  | SideBarLocation.SideBarNone => true

/-- static Qt.Edge edgeFromSideTabBarArea(SideBarLocation Area). -/
def edgeFromSideTabBarArea : SideBarLocation → QtEdge
  | SideBarLocation.SideBarTop => QtEdge.BottomEdge
  | SideBarLocation.SideBarBottom => QtEdge.TopEdge
  | SideBarLocation.SideBarLeft => QtEdge.RightEdge
  | SideBarLocation.SideBarRight => QtEdge.LeftEdge
  | SideBarLocation.SideBarNone => QtEdge.LeftEdge

/-- int resizeHandleLayoutPosition(SideBarLocation Area). -/
def resizeHandleLayoutPosition : SideBarLocation → Nat
  | SideBarLocation.SideBarBottom => 0
  | SideBarLocation.SideBarRight => 0
  | SideBarLocation.SideBarTop => 1
  | SideBarLocation.SideBarLeft => 1
  | SideBarLocation.SideBarNone => 0

/-- The observable state of one CAutoHideDockContainer together with the
fields of its private data struct.  Dock widgets are identified by
natural numbers.  Fields named as in the source where Lean allows it. -/
structure ContainerState where
  /-- d.SideTabBarArea -/
  SideTabBarArea : SideBarLocation
  /-- d.Size, the tracked size -/
  Size : QSize
  /-- the widget geometry, written by resize and move -/
  geometry : QRect
  /-- visibility of the container widget itself -/
  visible : Bool
  /-- whether the QPointer d.SideTab still points to a live side tab -/
  sideTabExists : Bool
  /-- visibility of the side tab -/
  sideTabVisible : Bool
  /-- the dock widget recorded on the side tab via setDockWidget -/
  sideTabDockWidget : Option Nat
  /-- whether qApp has this container installed as event filter -/
  eventFilterInstalled : Bool
  /-- d.DockWidget -/
  DockWidget : Option Nat
  /-- the dock widgets held by the internal dock area d.DockArea -/
  dockAreaContents : List Nat
  /-- the edge passed to the resize handle constructor -/
  resizeHandleEdge : QtEdge
  /-- the minimum resize size of the resize handle -/
  resizeHandleMinSize : Int
  /-- the maximum resize size of the resize handle -/
  resizeHandleMaxSize : Int
  /-- the items of the box layout in order -/
  layoutItems : List LayoutItem
  /-- whether raise was called after the last hide -/
  raised : Bool
  /-- the dock widget given focus via setDockWidgetFocused -/
  focusedDockWidget : Option Nat
deriving DecidableEq

/-- CAutoHideDockContainer.updateSize.  The parent dock container is
passed as an optional content rectangle: none models a null
dockContainer(), in which case the function returns without changes.
Otherwise the widget is resized and moved according to the side bar
location; resize and move only modify the geometry. -/
def updateSize (parentRect : Option QRect) (s : ContainerState) :
    ContainerState :=
  match parentRect with
  | none => s
  | some rect =>
    match s.SideTabBarArea with
    | SideBarLocation.SideBarTop =>
        let newW := rect.w
        let newH := min (rect.h - ResizeMargin) s.Size.height
        { s with geometry := ⟨rect.topLeft.x, rect.topLeft.y, newW, newH⟩ }
    | SideBarLocation.SideBarLeft =>
        let newW := min s.Size.width (rect.w - ResizeMargin)
        let newH := rect.h
        { s with geometry := ⟨rect.topLeft.x, rect.topLeft.y, newW, newH⟩ }
    | SideBarLocation.SideBarRight =>
        let newW := min s.Size.width (rect.w - ResizeMargin)
        let newH := rect.h
        let px := rect.topRight.x - (newW - 1)
        { s with geometry := ⟨px, rect.topRight.y, newW, newH⟩ }
    | SideBarLocation.SideBarBottom =>
        let newW := rect.w
        let newH := min (rect.h - ResizeMargin) s.Size.height
        let py := rect.bottomLeft.y - (newH - 1)
        { s with geometry := ⟨rect.bottomLeft.x, py, newW, newH⟩ }
    | SideBarLocation.SideBarNone => s

/-- AutoHideDockContainerPrivate.updateResizeHandleSizeLimitMax: reads
the content rectangle of the parent dock container, picks its width when
the resize handle orientation is horizontal and its height otherwise,
and sets the maximum resize size to that value minus ResizeMargin.  The
orientation of the resize handle is an input from the toolkit. -/
def updateResizeHandleSizeLimitMax (contentRect : QRect)
    (handleOrientationHorizontal : Bool) (s : ContainerState) :
    ContainerState :=
  let maxResizeHandleSize :=
    if handleOrientationHorizontal then contentRect.w else contentRect.h
  { s with resizeHandleMaxSize := maxResizeHandleSize - ResizeMargin }

/-- CAutoHideDockContainer.setSize(int Size): writes the height of the
tracked size when the area is horizontal, the width otherwise, then
calls updateSize. -/
def setSize (parentRect : Option QRect) (v : Int) (s : ContainerState) :
    ContainerState :=
  let s1 :=
    if isHorizontalArea s.SideTabBarArea then
      { s with Size := ⟨s.Size.width, v⟩ }
    else
      { s with Size := ⟨v, s.Size.height⟩ }
  updateSize parentRect s1

/-- CAutoHideDockContainer.collapseView(bool Enable).  Enable = true
hides the container and removes the application event filter; Enable =
false runs updateSize, updates the resize handle maximum, raises and
shows the container, focuses its dock widget and installs the
application event filter.  The content rectangle of the parent dock
container and the resize handle orientation are inputs. -/
def collapseView (contentRect : QRect) (handleOrientationHorizontal : Bool)
    (enable : Bool) (s : ContainerState) : ContainerState :=
  if enable then
    { s with visible := false, eventFilterInstalled := false }
  else
    let s1 := updateSize (some contentRect) s
    let s2 := updateResizeHandleSizeLimitMax contentRect
        handleOrientationHorizontal s1
    { s2 with
        raised := true,
        visible := true,
        focusedDockWidget := s2.DockWidget,
        eventFilterInstalled := true }

/-- CAutoHideDockContainer.toggleCollapseState: collapseView(isVisible()). -/
def toggleCollapseState (contentRect : QRect)
    (handleOrientationHorizontal : Bool) (s : ContainerState) :
    ContainerState :=
  collapseView contentRect handleOrientationHorizontal s.visible s

/-- CAutoHideDockContainer.toggleView(bool Enable): with Enable = true
it only shows the side tab when the side tab pointer is live; with
Enable = false it hides the side tab when live, hides the container and
removes the application event filter. -/
def toggleView (enable : Bool) (s : ContainerState) : ContainerState :=
  if enable then
    if s.sideTabExists then { s with sideTabVisible := true } else s
  else
    let s1 :=
      if s.sideTabExists then { s with sideTabVisible := false } else s
    { s1 with visible := false, eventFilterInstalled := false }

/-- Environment of one QEvent.MouseButtonPress observed by the installed
application event filter: the watched widget together with all its
ancestors (the chain walked by the while loop), the identity of the
parent dock container widget, the global click position, the global
top-left origins used by mapFromGlobal, and the rectangle of the side
tab in its own local coordinates. -/
structure MousePressEnv where
  watchedChain : List Nat
  containerId : Nat
  globalPos : QPoint
  containerGlobalOrigin : QPoint
  sideTabGlobalOrigin : QPoint
  sideTabRect : QRect
  contentRect : QRect
  handleOrientationHorizontal : Bool
deriving DecidableEq

/-- The QEvent.MouseButtonPress branch of
CAutoHideDockContainer.eventFilter.  The while loop sets IsContainer
when any widget of the parent chain of the watched widget equals the
dock container; if not, the event is ignored.  Then a click whose
position mapped into this widget lies inside rect() is ignored, then a
click inside the side tab rectangle is ignored; otherwise
collapseView(true) runs.  The Bool result records whether
collapseView(true) was invoked. -/
def eventFilterMouseButtonPress (env : MousePressEnv) (s : ContainerState) :
    Bool × ContainerState :=
  let isContainer := env.watchedChain.contains env.containerId
  if !isContainer then
    (false, s)
  else
    let pos := mapFromGlobal env.containerGlobalOrigin env.globalPos
    if QRect.containsPoint ⟨0, 0, s.geometry.w, s.geometry.h⟩ pos then
      (false, s)
    else
      let posTab := mapFromGlobal env.sideTabGlobalOrigin env.globalPos
      if QRect.containsPoint env.sideTabRect posTab then
        (false, s)
      else
        (true, collapseView env.contentRect env.handleOrientationHorizontal
          true s)

/-- A dock area outside this container, as seen through the pointer
returned by CDockWidget.dockAreaWidget: its contents and its size. -/
structure OldDockArea where
  contents : List Nat
  size : QSize
deriving DecidableEq

/-- Modelled from the spec: CDockAreaWidget.removeDockWidget is not part
of the provided sources (only its callers are); per the glossary a dock
area is the region hosting one or more dockable panels, so removal
drops the widget from the hosted list. -/
def dockAreaRemoveDockWidget (contents : List Nat) (w : Nat) : List Nat :=
  contents.erase w

/-- Modelled from the spec: CDockAreaWidget.addDockWidget is not part of
the provided sources (only its callers are); per the glossary a dock
area is the region hosting one or more dockable panels, so insertion
appends the widget to the hosted list. -/
def dockAreaAddDockWidget (contents : List Nat) (w : Nat) : List Nat :=
  contents ++ [w]

/-- CAutoHideDockContainer.addDockWidget(CDockWidget* DockWidget): the
previously held dock widget, if any, is removed from the internal dock
area; the new widget is recorded and attached to the side tab; when the
widget had an old dock area and the dock manager is not restoring
state, the tracked size becomes the old area size plus (16, 16) and the
widget is removed from the old area; then the widget is added to the
internal dock area and updateSize runs.  Returns the new container
state and the updated old dock area, if one was given. -/
def addDockWidget (parentRect : Option QRect) (oldArea : Option OldDockArea)
    (isRestoringState : Bool) (w : Nat) (s : ContainerState) :
    ContainerState × Option OldDockArea :=
  let s1 :=
    match s.DockWidget with
    | some prev =>
        { s with dockAreaContents :=
            dockAreaRemoveDockWidget s.dockAreaContents prev }
    | none => s
  let s2 := { s1 with DockWidget := some w, sideTabDockWidget := some w }
  let step3 : ContainerState × Option OldDockArea :=
    match oldArea with
    | some oa =>
        if isRestoringState then
          (s2, some oa)
        else
          ({ s2 with Size := QSize.add oa.size ⟨16, 16⟩ },
           some { oa with
             contents := dockAreaRemoveDockWidget oa.contents w })
    | none => (s2, none)
  let s4 := { step3.fst with dockAreaContents :=
      (dockAreaAddDockWidget step3.fst.dockAreaContents w) }
  (updateSize parentRect s4, step3.snd)

/-- One attribute written by QXmlStreamWriter.writeAttribute. -/
structure XmlAttr where
  key : String
  value : String
deriving DecidableEq

/-- One element written between writeStartElement and writeEndElement. -/
structure XmlElement where
  tag : String
  attrs : List XmlAttr
deriving DecidableEq

/-- QString.number on an integer. -/
def qstringNumber (n : Int) : String := toString n

/-- CAutoHideDockContainer.saveState(QXmlStreamWriter): writes one
Widget element carrying the object name of the dock widget, a Closed
flag encoded as 1 or 0, and the tracked height for a horizontal area or
the tracked width otherwise.  The name and closed flag of the dock
widget are inputs from the toolkit object. -/
def saveState (widgetName : String) (closed : Bool) (s : ContainerState) :
    List XmlElement :=
  [ { tag := "Widget",
      attrs :=
        [ ⟨"Name", widgetName⟩,
          ⟨"Closed", qstringNumber (if closed then 1 else 0)⟩,
          ⟨"Size", qstringNumber
            (if isHorizontalArea s.SideTabBarArea then s.Size.height
             else s.Size.width)⟩ ] } ]

/-- Toolkit inputs of the CAutoHideDockContainer constructor: the size
of the freshly created internal dock area, the old dock area of the
dock widget being added, the restoring flag of the dock manager, and
the content rectangle of the parent dock container. -/
structure ConstructorEnv where
  newDockAreaSize : QSize
  oldDockArea : Option OldDockArea
  isRestoringState : Bool
  parentContentRect : Option QRect
deriving DecidableEq

/-- The CAutoHideDockContainer constructor: hides the widget, stores the
area, creates the side tab (wired so that pressing it calls
toggleCollapseState) and the internal dock area, builds the box layout
with direction TopToBottom for a horizontal area and LeftToRight
otherwise, creates the resize handle on the edge given by
edgeFromSideTabBarArea with minimum resize size 64, sets the tracked
size to the size of the new dock area, runs addDockWidget, then adds
the dock area to the layout and inserts the resize handle at
resizeHandleLayoutPosition. -/
def construct (w : Nat) (area : SideBarLocation) (env : ConstructorEnv) :
    ContainerState :=
  let s0 : ContainerState :=
    { SideTabBarArea := area,
      Size := ⟨-1, -1⟩,
      geometry := ⟨0, 0, 0, 0⟩,
      visible := false,
      sideTabExists := true,
      sideTabVisible := false,
      sideTabDockWidget := none,
      eventFilterInstalled := false,
      DockWidget := none,
      dockAreaContents := [],
      resizeHandleEdge := edgeFromSideTabBarArea area,
      resizeHandleMinSize := 64,
      resizeHandleMaxSize := 0,
      layoutItems := [],
      raised := false,
      focusedDockWidget := none }
  let s1 := { s0 with Size := env.newDockAreaSize }
  let s2 := (addDockWidget env.parentContentRect env.oldDockArea
      env.isRestoringState w s1).fst
  let s3 := { s2 with layoutItems := [LayoutItem.dockAreaItem] }
  { s3 with layoutItems :=
      (layoutInsertWidget (resizeHandleLayoutPosition area)
        LayoutItem.resizeHandleItem s3.layoutItems) }

/-- Concrete constructor environment used to exercise the tracked-size
clause: the new internal dock area measures 50 by 50 while the dock
widget arrives from an old dock area measuring 100 by 100 and the dock
manager is not restoring state. -/
def c9Env : ConstructorEnv :=
  { newDockAreaSize := ⟨50, 50⟩,
    oldDockArea := some ⟨[7], ⟨100, 100⟩⟩,
    isRestoringState := false,
    parentContentRect := none }

/-- Helper: updateSize writes only the geometry field. -/
theorem updateSize_eq_set_geometry (parentRect : Option QRect)
    (s : ContainerState) :
    updateSize parentRect s =
      { s with geometry := (updateSize parentRect s).geometry } := by
  cases parentRect with
  | none => rfl
  | some r =>
      cases h : s.SideTabBarArea <;>
        (simp [updateSize, h]; try rw [← h])

/-- Helper: updateSize preserves visibility. -/
theorem updateSize_visible (parentRect : Option QRect) (s : ContainerState) :
    (updateSize parentRect s).visible = s.visible := by
  rw [updateSize_eq_set_geometry]

/-- Helper: updateSize preserves the recorded dock widget. -/
theorem updateSize_DockWidget (parentRect : Option QRect)
    (s : ContainerState) :
    (updateSize parentRect s).DockWidget = s.DockWidget := by
  rw [updateSize_eq_set_geometry]

/-- Helper: updateSize preserves the tracked size. -/
theorem updateSize_Size (parentRect : Option QRect) (s : ContainerState) :
    (updateSize parentRect s).Size = s.Size := by
  rw [updateSize_eq_set_geometry]

/-- Helper: updateSize preserves the dock area contents. -/
theorem updateSize_dockAreaContents (parentRect : Option QRect)
    (s : ContainerState) :
    (updateSize parentRect s).dockAreaContents = s.dockAreaContents := by
  rw [updateSize_eq_set_geometry]

/-- Helper: updateSize preserves the dock widget of the side tab. -/
theorem updateSize_sideTabDockWidget (parentRect : Option QRect)
    (s : ContainerState) :
    (updateSize parentRect s).sideTabDockWidget = s.sideTabDockWidget := by
  rw [updateSize_eq_set_geometry]

/-- Helper: addDockWidget preserves visibility. -/
theorem addDockWidget_fst_visible (parentRect : Option QRect)
    (oldArea : Option OldDockArea) (isRestoringState : Bool) (w : Nat)
    (s : ContainerState) :
    ((addDockWidget parentRect oldArea isRestoringState w s).fst).visible =
      s.visible := by
  cases oldArea <;> cases isRestoringState <;> cases hd : s.DockWidget <;>
    simp [addDockWidget, updateSize_visible, hd]

/-- Helper: addDockWidget preserves the side bar area. -/
theorem addDockWidget_fst_SideTabBarArea (parentRect : Option QRect)
    (oldArea : Option OldDockArea) (isRestoringState : Bool) (w : Nat)
    (s : ContainerState) :
    ((addDockWidget parentRect oldArea isRestoringState w s).fst).SideTabBarArea =
      s.SideTabBarArea := by
  have h := updateSize_eq_set_geometry
  cases oldArea <;> cases isRestoringState <;> cases hd : s.DockWidget <;>
    (simp only [addDockWidget]; rw [h]; simp [hd])

/-- Helper: addDockWidget preserves the resize handle edge. -/
theorem addDockWidget_fst_resizeHandleEdge (parentRect : Option QRect)
    (oldArea : Option OldDockArea) (isRestoringState : Bool) (w : Nat)
    (s : ContainerState) :
    ((addDockWidget parentRect oldArea isRestoringState w s).fst).resizeHandleEdge =
      s.resizeHandleEdge := by
  have h := updateSize_eq_set_geometry
  cases oldArea <;> cases isRestoringState <;> cases hd : s.DockWidget <;>
    (simp only [addDockWidget]; rw [h]; simp [hd])

/-- Helper: addDockWidget preserves the minimum resize size. -/
theorem addDockWidget_fst_resizeHandleMinSize (parentRect : Option QRect)
    (oldArea : Option OldDockArea) (isRestoringState : Bool) (w : Nat)
    (s : ContainerState) :
    ((addDockWidget parentRect oldArea isRestoringState w s).fst).resizeHandleMinSize =
      s.resizeHandleMinSize := by
  have h := updateSize_eq_set_geometry
  cases oldArea <;> cases isRestoringState <;> cases hd : s.DockWidget <;>
    (simp only [addDockWidget]; rw [h]; simp [hd])

/-- Claim C1: with a parent content rectangle R, updateSize resizes to
width R.w and height min(R.h - 30, tracked height) for the top location
at the top-left corner of R; the same size bottom-aligned for the bottom
location; width min(tracked width, R.w - 30) and height R.h at the
top-left corner for the left location; the same size right-aligned for
the right location; with no parent dock container it changes nothing. -/
theorem C1_updateSize (rect : QRect) (s : ContainerState) :
    updateSize none s = s ∧
    ((updateSize (some rect)
        { s with SideTabBarArea := SideBarLocation.SideBarTop }).geometry =
      ⟨rect.x, rect.y, rect.w, min (rect.h - 30) s.Size.height⟩) ∧
    (let g := (updateSize (some rect)
        { s with SideTabBarArea := SideBarLocation.SideBarBottom }).geometry
     g.w = rect.w ∧ g.h = min (rect.h - 30) s.Size.height ∧
     g.x = rect.x ∧ g.y + g.h - 1 = rect.y + rect.h - 1) ∧
    ((updateSize (some rect)
        { s with SideTabBarArea := SideBarLocation.SideBarLeft }).geometry =
      ⟨rect.x, rect.y, min s.Size.width (rect.w - 30), rect.h⟩) ∧
    (let g := (updateSize (some rect)
        { s with SideTabBarArea := SideBarLocation.SideBarRight }).geometry
     g.w = min s.Size.width (rect.w - 30) ∧ g.h = rect.h ∧
     g.x + g.w - 1 = rect.x + rect.w - 1 ∧ g.y = rect.y) := by
  refine ⟨rfl, ?_, ?_, ?_, ?_⟩
  · simp [updateSize, QRect.topLeft, ResizeMargin]
  · simp [updateSize, QRect.bottomLeft, ResizeMargin]
  · simp [updateSize, QRect.topLeft, ResizeMargin]
  · simp [updateSize, QRect.topRight, ResizeMargin]

/-- Claim C2: setSize(s) writes the height of the tracked size for a
horizontal area (top, bottom, or the remaining SideBarNone value) and
the width for left or right, leaves the other component unchanged, and
then recomputes the geometry via updateSize. -/
theorem C2_setSize (parentRect : Option QRect) (v : Int)
    (s : ContainerState) :
    (setSize parentRect v { s with SideTabBarArea := SideBarLocation.SideBarTop } =
      updateSize parentRect { s with
        SideTabBarArea := SideBarLocation.SideBarTop,
        Size := ⟨s.Size.width, v⟩ }) ∧
    (setSize parentRect v { s with SideTabBarArea := SideBarLocation.SideBarBottom } =
      updateSize parentRect { s with
        SideTabBarArea := SideBarLocation.SideBarBottom,
        Size := ⟨s.Size.width, v⟩ }) ∧
    (setSize parentRect v { s with SideTabBarArea := SideBarLocation.SideBarNone } =
      updateSize parentRect { s with
        SideTabBarArea := SideBarLocation.SideBarNone,
        Size := ⟨s.Size.width, v⟩ }) ∧
    (setSize parentRect v { s with SideTabBarArea := SideBarLocation.SideBarLeft } =
      updateSize parentRect { s with
        SideTabBarArea := SideBarLocation.SideBarLeft,
        Size := ⟨v, s.Size.height⟩ }) ∧
    (setSize parentRect v { s with SideTabBarArea := SideBarLocation.SideBarRight } =
      updateSize parentRect { s with
        SideTabBarArea := SideBarLocation.SideBarRight,
        Size := ⟨v, s.Size.height⟩ }) := by
  refine ⟨rfl, rfl, rfl, rfl, rfl⟩

/-- Claim C3: pressing the side tab is wired to toggleCollapseState,
which calls collapseView with the current visibility, so the container
collapses (becomes hidden) exactly when it was visible and expands
(becomes shown) exactly when it was hidden. -/
theorem C3_toggleCollapseState (contentRect : QRect)
    (handleOrientationHorizontal : Bool) (s : ContainerState) :
    toggleCollapseState contentRect handleOrientationHorizontal s =
      collapseView contentRect handleOrientationHorizontal s.visible s ∧
    (toggleCollapseState contentRect handleOrientationHorizontal s).visible =
      !s.visible := by
  refine ⟨rfl, ?_⟩
  cases h : s.visible <;>
    simp [toggleCollapseState, collapseView,
      updateResizeHandleSizeLimitMax, h, updateSize_visible]

/-- Claim C4: collapseView(true) hides the container and removes the
application event filter; collapseView(false) recomputes the geometry
via updateSize and the resize handle maximum via
updateResizeHandleSizeLimitMax, raises and shows the container, focuses
its dock widget, and installs the application event filter; after every
call the event filter is installed exactly when the container is shown. -/
theorem C4_collapseView (contentRect : QRect)
    (handleOrientationHorizontal : Bool) (s : ContainerState) :
    (collapseView contentRect handleOrientationHorizontal true s).visible = false ∧
    (collapseView contentRect handleOrientationHorizontal true s).eventFilterInstalled = false ∧
    (collapseView contentRect handleOrientationHorizontal false s).geometry =
      (updateSize (some contentRect) s).geometry ∧
    (collapseView contentRect handleOrientationHorizontal false s).resizeHandleMaxSize =
      (if handleOrientationHorizontal then contentRect.w else contentRect.h) - 30 ∧
    (collapseView contentRect handleOrientationHorizontal false s).raised = true ∧
    (collapseView contentRect handleOrientationHorizontal false s).visible = true ∧
    (collapseView contentRect handleOrientationHorizontal false s).focusedDockWidget =
      s.DockWidget ∧
    (collapseView contentRect handleOrientationHorizontal false s).eventFilterInstalled = true ∧
    (∀ e : Bool,
      (collapseView contentRect handleOrientationHorizontal e s).eventFilterInstalled =
      (collapseView contentRect handleOrientationHorizontal e s).visible) := by
  refine ⟨rfl, rfl, ?_, ?_, rfl, rfl, ?_, rfl, ?_⟩
  · simp [collapseView, updateResizeHandleSizeLimitMax]
  · simp [collapseView, updateResizeHandleSizeLimitMax, ResizeMargin]
  · simp [collapseView, updateResizeHandleSizeLimitMax, updateSize_DockWidget]
  · intro e
    cases e <;> simp [collapseView, updateResizeHandleSizeLimitMax]

/-- Claim C5: toggleView(false) hides the side tab and the container and
removes the application event filter; toggleView(true) only shows the
side tab and leaves the visibility of the container itself and the
event filter installation unchanged. -/
theorem C5_toggleView (s : ContainerState) :
    (toggleView false { s with sideTabExists := true }).sideTabVisible = false ∧
    (toggleView false s).visible = false ∧
    (toggleView false s).eventFilterInstalled = false ∧
    (toggleView true { s with sideTabExists := true }).sideTabVisible = true ∧
    (toggleView true s).visible = s.visible ∧
    (toggleView true s).eventFilterInstalled = s.eventFilterInstalled := by
  refine ⟨rfl, ?_, ?_, rfl, ?_, ?_⟩ <;>
    cases h : s.sideTabExists <;> simp [toggleView, h]

/-- Claim C6: a mouse button press seen by the installed application
event filter triggers collapseView(true) exactly when the watched
widget lies in the widget hierarchy of the parent dock container and
the click position is outside both the rectangle of the container
itself and the rectangle of the side tab; in every other case the state
is unchanged. -/
theorem C6_eventFilterMouseButtonPress (env : MousePressEnv)
    (s : ContainerState) :
    ((eventFilterMouseButtonPress env s).fst = true ↔
      (env.watchedChain.contains env.containerId = true ∧
       QRect.containsPoint ⟨0, 0, s.geometry.w, s.geometry.h⟩
         (mapFromGlobal env.containerGlobalOrigin env.globalPos) = false ∧
       QRect.containsPoint env.sideTabRect
         (mapFromGlobal env.sideTabGlobalOrigin env.globalPos) = false)) ∧
    ((eventFilterMouseButtonPress env s).snd =
      (if (eventFilterMouseButtonPress env s).fst then
        collapseView env.contentRect env.handleOrientationHorizontal true s
      else s)) := by
  by_cases hm : env.containerId ∈ env.watchedChain <;>
    cases h1 : QRect.containsPoint ⟨0, 0, s.geometry.w, s.geometry.h⟩
      (mapFromGlobal env.containerGlobalOrigin env.globalPos) <;>
    cases h2 : QRect.containsPoint env.sideTabRect
      (mapFromGlobal env.sideTabGlobalOrigin env.globalPos) <;>
    simp [eventFilterMouseButtonPress, hm, h1, h2]

/-- Claim C7: addDockWidget removes the previously held dock widget from
the internal dock area, records the new widget and attaches it to the
side tab, copies the old area size plus (16, 16) into the tracked size
and removes the widget from the old area exactly when an old area
exists and the manager is not restoring state, appends the widget to
the internal dock area, and finally recomputes the geometry via
updateSize. -/
theorem C7_addDockWidget (parentRect : Option QRect)
    (oldArea : Option OldDockArea) (restoring : Bool)
    (oc : List Nat) (os : QSize) (w prev : Nat) (s : ContainerState) :
    (((addDockWidget parentRect oldArea restoring w
        { s with DockWidget := some prev }).fst).dockAreaContents =
      dockAreaAddDockWidget
        (dockAreaRemoveDockWidget s.dockAreaContents prev) w) ∧
    (((addDockWidget parentRect oldArea restoring w
        { s with DockWidget := none }).fst).dockAreaContents =
      dockAreaAddDockWidget s.dockAreaContents w) ∧
    (((addDockWidget parentRect oldArea restoring w s).fst).DockWidget =
      some w) ∧
    (((addDockWidget parentRect oldArea restoring w s).fst).sideTabDockWidget =
      some w) ∧
    (((addDockWidget parentRect (some ⟨oc, os⟩) false w s).fst).Size =
      QSize.add os ⟨16, 16⟩) ∧
    ((addDockWidget parentRect (some ⟨oc, os⟩) false w s).snd =
      some ⟨dockAreaRemoveDockWidget oc w, os⟩) ∧
    (((addDockWidget parentRect (some ⟨oc, os⟩) true w s).fst).Size =
      s.Size) ∧
    ((addDockWidget parentRect (some ⟨oc, os⟩) true w s).snd =
      some ⟨oc, os⟩) ∧
    (((addDockWidget parentRect none restoring w s).fst).Size = s.Size) ∧
    ((addDockWidget parentRect none restoring w s).snd = none) ∧
    ((addDockWidget parentRect oldArea restoring w s).fst =
      updateSize parentRect
        ((addDockWidget none oldArea restoring w s).fst)) := by
  refine ⟨?_, ?_, ?_, ?_, ?_, ?_, ?_, ?_, ?_, ?_, rfl⟩ <;>
    cases oldArea <;> cases restoring <;> cases hd : s.DockWidget <;>
      simp [addDockWidget, hd, updateSize_dockAreaContents,
        updateSize_DockWidget, updateSize_sideTabDockWidget, updateSize_Size]

/-- Claim C8: saveState writes exactly one Widget element whose Name
attribute is the object name of the dock widget, whose Closed attribute
is 1 when the dock widget is closed and 0 otherwise, and whose Size
attribute is the tracked height for a horizontal side bar area (top or
bottom) and the tracked width for a vertical one (left or right). -/
theorem C8_saveState (widgetName : String) (closed : Bool)
    (s : ContainerState) :
    ((saveState widgetName closed s).length = 1) ∧
    (saveState widgetName closed s =
      [ ⟨"Widget",
          [ ⟨"Name", widgetName⟩,
            ⟨"Closed", if closed then "1" else "0"⟩,
            ⟨"Size", qstringNumber
              (if isHorizontalArea s.SideTabBarArea then s.Size.height
               else s.Size.width)⟩ ] ⟩ ]) ∧
    (saveState widgetName closed
        { s with SideTabBarArea := SideBarLocation.SideBarTop } =
      [ ⟨"Widget",
          [ ⟨"Name", widgetName⟩,
            ⟨"Closed", if closed then "1" else "0"⟩,
            ⟨"Size", qstringNumber s.Size.height⟩ ] ⟩ ]) ∧
    (saveState widgetName closed
        { s with SideTabBarArea := SideBarLocation.SideBarBottom } =
      [ ⟨"Widget",
          [ ⟨"Name", widgetName⟩,
            ⟨"Closed", if closed then "1" else "0"⟩,
            ⟨"Size", qstringNumber s.Size.height⟩ ] ⟩ ]) ∧
    (saveState widgetName closed
        { s with SideTabBarArea := SideBarLocation.SideBarLeft } =
      [ ⟨"Widget",
          [ ⟨"Name", widgetName⟩,
            ⟨"Closed", if closed then "1" else "0"⟩,
            ⟨"Size", qstringNumber s.Size.width⟩ ] ⟩ ]) ∧
    (saveState widgetName closed
        { s with SideTabBarArea := SideBarLocation.SideBarRight } =
      [ ⟨"Widget",
          [ ⟨"Name", widgetName⟩,
            ⟨"Closed", if closed then "1" else "0"⟩,
            ⟨"Size", qstringNumber s.Size.width⟩ ] ⟩ ]) := by
  cases closed <;>
    simp [saveState, qstringNumber, isHorizontalArea] <;>
    rfl

/-- Claim C9 fails on the tracked size: constructing the container for
dock widget 7 at the left side bar location, with a fresh internal dock
area of size 50 by 50 but an old dock area of size 100 by 100 while the
dock manager is not restoring state, stores a tracked size of 116 by
116, not the size of the newly created internal dock area. -/
theorem C9_counterexample :
    (construct 7 SideBarLocation.SideBarLeft c9Env).Size = QSize.mk 116 116 ∧
    (decide ((construct 7 SideBarLocation.SideBarLeft c9Env).Size =
      c9Env.newDockAreaSize)) = false := by
  decide

/-- Claim C9 amended: immediately after construction with area A the
container is hidden, its side bar location is A, its resize handle has
minimum resize size 64 and sits on the edge opposite to A, and the
resize handle occupies layout position 0 for bottom and right areas and
position 1 for top and left areas; the tracked size equals the size of
the newly created internal dock area when the dock widget had no old
dock area or the dock manager is restoring state, and the old dock area
size plus (16, 16) otherwise. -/
theorem C9_construct (w : Nat) (area : SideBarLocation)
    (env : ConstructorEnv) (oa : OldDockArea) :
    ((construct w area env).visible = false) ∧
    ((construct w area env).SideTabBarArea = area) ∧
    ((construct w area env).resizeHandleMinSize = 64) ∧
    ((construct w SideBarLocation.SideBarTop env).resizeHandleEdge =
      QtEdge.BottomEdge) ∧
    ((construct w SideBarLocation.SideBarBottom env).resizeHandleEdge =
      QtEdge.TopEdge) ∧
    ((construct w SideBarLocation.SideBarLeft env).resizeHandleEdge =
      QtEdge.RightEdge) ∧
    ((construct w SideBarLocation.SideBarRight env).resizeHandleEdge =
      QtEdge.LeftEdge) ∧
    ((construct w SideBarLocation.SideBarBottom env).layoutItems =
      [LayoutItem.resizeHandleItem, LayoutItem.dockAreaItem]) ∧
    ((construct w SideBarLocation.SideBarRight env).layoutItems =
      [LayoutItem.resizeHandleItem, LayoutItem.dockAreaItem]) ∧
    ((construct w SideBarLocation.SideBarTop env).layoutItems =
      [LayoutItem.dockAreaItem, LayoutItem.resizeHandleItem]) ∧
    ((construct w SideBarLocation.SideBarLeft env).layoutItems =
      [LayoutItem.dockAreaItem, LayoutItem.resizeHandleItem]) ∧
    ((construct w area { env with oldDockArea := none }).Size =
      env.newDockAreaSize) ∧
    ((construct w area
        { env with oldDockArea := some oa, isRestoringState := true }).Size =
      env.newDockAreaSize) ∧
    ((construct w area
        { env with oldDockArea := some oa, isRestoringState := false }).Size =
      QSize.add oa.size ⟨16, 16⟩) := by
  refine ⟨?_, ?_, ?_, ?_, ?_, ?_, ?_, ?_, ?_, ?_, ?_, ?_, ?_, ?_⟩
  · simp [construct, addDockWidget_fst_visible]
  · simp [construct, addDockWidget_fst_SideTabBarArea]
  · simp [construct, addDockWidget_fst_resizeHandleMinSize]
  · simp [construct, addDockWidget_fst_resizeHandleEdge,
      edgeFromSideTabBarArea]
  · simp [construct, addDockWidget_fst_resizeHandleEdge,
      edgeFromSideTabBarArea]
  · simp [construct, addDockWidget_fst_resizeHandleEdge,
      edgeFromSideTabBarArea]
  · simp [construct, addDockWidget_fst_resizeHandleEdge,
      edgeFromSideTabBarArea]
  · simp [construct, layoutInsertWidget, resizeHandleLayoutPosition]
  · simp [construct, layoutInsertWidget, resizeHandleLayoutPosition]
  · simp [construct, layoutInsertWidget, resizeHandleLayoutPosition]
  · simp [construct, layoutInsertWidget, resizeHandleLayoutPosition]
  · simp [construct, addDockWidget, updateSize_Size]
  · simp [construct, addDockWidget, updateSize_Size]
  · simp [construct, addDockWidget, updateSize_Size]

end ads
